import Mathlib

/-!
Verification of the Garud reconnaissance-and-crawl pipeline (Python backend).

Shallow embedding: each relevant Python function is translated into an
executable Lean definition.  Python dicts whose keys may be absent become
structures of `Option` fields, with `Option.getD` standing for `dict.get`
with a default.  Subprocess / network side effects are supplied through
explicit environment values, so every embedded function is total.

String primitives are re-implemented over `List Char` so that concrete
instances evaluate by `decide`:
  * `strStartsWith`  models Python `str.startswith`
  * `containsSub`    models Python `kw in s` (substring test)
  * `strToLower`     models `str.lower()` (ASCII, all data here is ASCII)
  * `netloc`         models `urlparse(u).netloc` for the URLs this code handles
-/

namespace Garud

/-- Python `s.startswith(p)`. -/
def strStartsWith (s p : String) : Bool :=
  p.data.isPrefixOf s.data

/-- Substring occurrence over char lists: pattern `p` occurs in `s`. -/
def listContainsSub (s p : List Char) : Bool :=
  match s with
  | [] => p.isEmpty
  | _ :: t => p.isPrefixOf s || listContainsSub t p

/-- Python `p in s` for strings (substring containment). -/
def containsSub (s p : String) : Bool :=
  listContainsSub s.data p.data

/-- Python `s.lower()` (ASCII). -/
def strToLower (s : String) : String :=
  ⟨s.data.map Char.toLower⟩

/-- Python `s.strip()` (whitespace both ends). -/
def strTrim (s : String) : String :=
  ⟨((s.data.dropWhile Char.isWhitespace).reverse.dropWhile Char.isWhitespace).reverse⟩

/-- Python `s[:n]`. -/
def strTake (s : String) (n : Nat) : String :=
  ⟨s.data.take n⟩

/-- Chars after the first `://` separator, if any. -/
def afterSchemeSep : List Char → Option (List Char)
  | [] => none
  | ':' :: '/' :: '/' :: rest => some rest
  | _ :: rest => afterSchemeSep rest

/-- Chars before the first `://` separator, if any. -/
def beforeSchemeSep : List Char → Option (List Char)
  | [] => none
  | ':' :: '/' :: '/' :: _ => some []
  | c :: rest => (beforeSchemeSep rest).map (c :: ·)

/-- `urlparse(u).netloc` for an absolute URL: the part after `://` up to the
first `/`, `?` or `#`; empty when `u` has no `://`. -/
def netloc (u : String) : String :=
  match afterSchemeSep u.data with
  | some rest => ⟨rest.takeWhile (fun c => !(c == '/' || c == '?' || c == '#'))⟩
  | none => ""

/-- `urlparse(u).scheme` (lower-cased) for an absolute URL. -/
def schemeOf (u : String) : String :=
  match beforeSchemeSep u.data with
  | some l => ⟨l.map Char.toLower⟩
  | none => ""

/-- Python `s.split(sep)` for a one-char separator. -/
def splitOnChar (sep : Char) : List Char → List (List Char)
  | [] => [[]]
  | c :: rest =>
    match splitOnChar sep rest with
    | [] => [[]]
    | cur :: done => if c == sep then [] :: cur :: done else (c :: cur) :: done

/-- Python `s.split('\n')`. -/
def splitLines (s : String) : List String :=
  (splitOnChar '\n' s.data).map (⟨·⟩)

/-- Value of a decimal digit string. -/
def digitsToNat (l : List Char) : Nat :=
  l.foldl (fun a c => a * 10 + (c.toNat - 48)) 0

/-- `re.search r'(\d+)/'` over a line: the leftmost maximal digit run that is
immediately followed by `/`, returned as a number.  (Backtracking inside a
digit run cannot succeed because a digit is never `/`, so the leftmost match
is exactly the first maximal run whose successor char is `/`.) -/
def findPortNum : List Char → Option Nat
  | [] => none
  | c :: rest =>
    if c.isDigit then
      match rest.dropWhile Char.isDigit with
      | '/' :: _ => some (digitsToNat (c :: rest.takeWhile Char.isDigit))
      | _ => findPortNum rest
    else
      findPortNum rest

/-- Insertion into a sorted list (ascending). -/
def insSorted (x : Nat) : List Nat → List Nat
  | [] => [x]
  | y :: ys => if x ≤ y then x :: y :: ys else y :: insSorted x ys

/-- Insertion sort, ascending — models Python `sorted`. -/
def sortNat (l : List Nat) : List Nat :=
  l.foldr insSorted []

/-! ## network_scanner.py -/

/-- Dict returned by `NetworkScanner._ping_host`; absent keys are `none`
(the timeout / tool-missing / exception branches omit `host_reachable`). -/
structure PingResults where
  success : Bool
  host_reachable : Option Bool := none
  response_times : Option (List String) := none
  output : Option String := none
  error : Option String := none
deriving DecidableEq, Repr

/-- Dict returned by `NetworkScanner._nslookup`; the exception branch omits
the address lists. -/
structure DnsResults where
  hostname : Option String := none
  ipv4_addresses : Option (List String) := none
  ipv6_addresses : Option (List String) := none
  cname : Option String := none
  mx_records : Option (List String) := none
  command_output : Option String := none
  success : Bool
  error : Option String := none
deriving DecidableEq, Repr

/-- Dict returned by `NetworkScanner._traceroute`. -/
structure TracerouteResults where
  success : Bool
  hops : Option (List String) := none
  total_hops : Option Nat := none
  output : Option String := none
  error : Option String := none
deriving DecidableEq, Repr

/-- Dict returned by `NetworkScanner._nmap_scan`. -/
structure NmapResults where
  success : Bool
  open_ports : Option (List String) := none
  scan_data : Option String := none
  error : Option String := none
  install_instructions : Option String := none
  note : Option String := none
deriving DecidableEq, Repr

/-- Dict returned by `NetworkScanner._get_socket_info`. -/
structure SocketInfo where
  hostname_canonical : Option String := none
  aliases : Option (List String) := none
  all_addresses : Option (List String) := none
  success : Bool
  error : Option String := none
deriving DecidableEq, Repr

/-- Outcome of the external nmap tool invocation (the subprocess side of
`_nmap_scan`): the binary may be missing, its version check may fail, and
the scan itself may succeed with stdout, fail with stderr, or time out. -/
inductive NmapEnv where
  | toolMissing
  | versionCheckFails
  | scanOk (stdout : String)
  | scanFails (stderr : String)
  | scanTimeout
deriving DecidableEq, Repr

/-- `NetworkScanner._nmap_scan`: branch-for-branch translation over the
subprocess outcome.  A missing binary (`FileNotFoundError`) yields a tagged
`success=False` result instead of an exception. -/
def nmap_scan : NmapEnv → NmapResults
  | .toolMissing =>
    { success := false, error := some "nmap not installed",
      note := some "Optional tool - system will continue without it" }
  | .versionCheckFails =>
    { success := false, error := some "nmap not installed",
      install_instructions :=
        some "Install via: apt-get install nmap (Linux) or brew install nmap (Mac)" }
  | .scanOk stdout =>
    { success := true,
      open_ports :=
        some (((splitLines stdout).filter
          (fun line => containsSub (strToLower line) "open")).map strTrim),
      scan_data := some (strTake stdout 1000) }
  | .scanFails stderr =>
    { success := false, error := some (strTake stderr 200) }
  | .scanTimeout =>
    { success := false, error := some "nmap timeout (timeout after 30s)" }

/-- The `scan_results` dict built in `NetworkScanner.scan_target` before the
summary is attached. -/
structure ScanData where
  hostname : String
  ping_results : PingResults
  dns_results : DnsResults
  traceroute_results : TracerouteResults
  nmap_results : NmapResults
  socket_info : SocketInfo
deriving DecidableEq, Repr

/-- `NetworkScanner._extract_open_ports`. -/
def extract_open_ports (scan_results : ScanData) : List Nat :=
  match scan_results.nmap_results.success, scan_results.nmap_results.open_ports with
  | true, some lines =>
    if lines.isEmpty then []
    else sortNat ((lines.filterMap (fun line => findPortNum line.data)).dedup)
  | _, _ => []

/-- The fixed well-known-port table of `NetworkScanner._map_services`. -/
def port_services : List (Nat × String) :=
  [(80, "HTTP"), (443, "HTTPS"), (22, "SSH"), (21, "FTP"),
   (25, "SMTP"), (53, "DNS"), (3306, "MySQL"), (5432, "PostgreSQL")]

/-- `NetworkScanner._map_services`. -/
def map_services (scan_results : ScanData) : List (Nat × String) :=
  (extract_open_ports scan_results).map
    (fun port => (port, ((port_services.lookup port).getD "Unknown")))

/-- `summary['target_info']`. -/
structure TargetInfo where
  hostname : String
  reachable : Bool
  ip_addresses : List String
deriving DecidableEq, Repr

/-- The Network Summary dict built by `NetworkScanner._generate_summary`. -/
structure Summary where
  target_info : TargetInfo
  open_ports : List Nat
  services : List (Nat × String)
  hop_count : Nat
  network_accessible : Bool
deriving DecidableEq, Repr

/-- `NetworkScanner._generate_summary`.  Note the source computes
`network_accessible` from `host_reachable` truthiness and the **IPv4** list
only, while `target_info.ip_addresses` is the IPv4 ++ IPv6 union. -/
def generate_summary (scan_results : ScanData) : Summary :=
  { target_info :=
      { hostname := scan_results.hostname
        reachable := scan_results.ping_results.host_reachable.getD false
        ip_addresses :=
          scan_results.dns_results.ipv4_addresses.getD []
            ++ scan_results.dns_results.ipv6_addresses.getD [] }
    open_ports := extract_open_ports scan_results
    services := map_services scan_results
    hop_count := scan_results.traceroute_results.total_hops.getD 0
    network_accessible :=
      scan_results.ping_results.host_reachable.getD false
        && !(scan_results.dns_results.ipv4_addresses.getD []).isEmpty }

/-- `NetworkScanner._extract_hostname`. -/
def extract_hostname (url : String) : String :=
  if strStartsWith url "http://" || strStartsWith url "https://" then
    ⟨(netloc url).data.takeWhile (fun c => !(c == ':'))⟩
  else
    ⟨url.data.takeWhile (fun c => !(c == ':'))⟩

/-- Environment for one `scan_target` call: the results the four sibling
probes and the socket lookup would report, plus the nmap tool outcome
(whose interpretation `_nmap_scan` is embedded above). -/
structure ScanEnv where
  ping : PingResults
  dns : DnsResults
  trace : TracerouteResults
  sock : SocketInfo
  nmap : NmapEnv
deriving Repr

/-- Full `scan_target` output: the probe dicts plus the generated summary. -/
structure ScanOutput extends ScanData where
  summary : Summary
deriving DecidableEq, Repr

/-- `NetworkScanner.scan_target`: runs all probes, then attaches the
summary.  Total — no probe failure aborts the others or the summary. -/
def scan_target (url : String) (env : ScanEnv) : ScanOutput :=
  let data : ScanData :=
    { hostname := extract_hostname url
      ping_results := env.ping
      dns_results := env.dns
      traceroute_results := env.trace
      nmap_results := nmap_scan env.nmap
      socket_info := env.sock }
  { toScanData := data, summary := generate_summary data }

/-! ## beautifulsoup_crawler.py — `_extract_links`

The DOM-query collaborator is abstracted to the list of `href` attribute
values found on the page; `urljoin` (an external library routine) is passed
in as the parameter `join` — nothing proved below depends on its value. -/

/-- The bucket a single href is sent to by the classification loop of
`BeautifulSoupCrawler._extract_links`. -/
inductive LinkClass where
  | email
  | discard
  | internal (u : String)
  | external (u : String)
deriving DecidableEq, Repr

/-- Per-href classification, mirroring the if/elif chain of the source:
`mailto:` first, then `javascript:`, then absolute `http...` hrefs split by
the Python substring test `base_domain in href`, and every remaining href
resolved with `urljoin` and sent to the internal bucket. -/
def classifyHref (join : String → String → String) (base_domain base_url href : String) :
    LinkClass :=
  if strStartsWith href "mailto:" then .email
  else if strStartsWith href "javascript:" then .discard
  else if strStartsWith href "http" then
    (if containsSub href base_domain then .internal href else .external href)
  else .internal (join base_url href)

/-- The `links` dict produced by `_extract_links`; the error branch of the
source returns only the three count keys, hence the `Option` fields. -/
structure LinksInfo where
  total : Option Nat := none
  internal : Option Nat := none
  external : Option Nat := none
  email : Option Nat := none
  internal_links : Option (List String) := none
  external_links : Option (List String) := none
  email_links : Option (List String) := none
deriving DecidableEq, Repr

/-- The raw internal bucket (pre-dedup), in page order. -/
def internalBucket (join : String → String → String) (base_url : String)
    (hrefs : List String) : List String :=
  hrefs.filterMap (fun h =>
    match classifyHref join (netloc base_url) base_url h with
    | .internal u => some u
    | _ => none)

/-- The raw external bucket (pre-dedup), in page order. -/
def externalBucket (join : String → String → String) (base_url : String)
    (hrefs : List String) : List String :=
  hrefs.filterMap (fun h =>
    match classifyHref join (netloc base_url) base_url h with
    | .external u => some u
    | _ => none)

/-- `BeautifulSoupCrawler._extract_links`.  `total` is the length of the two
raw buckets; `internal`/`external` are the deduplicated (`len(set(...))`)
counts; `list(set(...))[:50]` is modelled as dedup-then-take (the source's
set iteration order is unspecified anyway). -/
def extract_links (join : String → String → String) (base_url : String)
    (hrefs : List String) : LinksInfo :=
  let internal_links := internalBucket join base_url hrefs
  let external_links := externalBucket join base_url hrefs
  let email_links := hrefs.filter (fun h => strStartsWith h "mailto:")
  { total := some (internal_links.length + external_links.length)
    internal := some internal_links.dedup.length
    external := some external_links.dedup.length
    email := some email_links.length
    internal_links := some (internal_links.dedup.take 50)
    external_links := some (external_links.dedup.take 50)
    email_links := some email_links }

/-! ## scrapy_crawler.py — `ScrapyEngine`

A page, as seen through the DOM-query collaborator: its href attributes
plus the already-extracted structural data `_parse_page` copies over. -/

/-- A form dict as built by `ScrapyEngine._extract_forms_from_soup`. -/
structure SForm where
  name : String
  id : String
  action : String
  method : String
  enctype : String
  field_count : Nat
deriving DecidableEq, Repr

/-- An input dict (`type`/`name`/`id`/`value` attributes with the source's
defaults already applied); shared by the crawlers and the middleware. -/
structure InputField where
  type : String
  name : String
  id : String := ""
  value : String := ""
deriving DecidableEq, Repr

/-- `_extract_structured_data` output (JSON-LD payloads kept as strings). -/
structure StructuredData where
  json_ld : List String := []
  microdata : List String := []
  og_tags : List (String × String) := []
deriving DecidableEq, Repr

/-- One fetched document, through the parsing collaborator's eyes. -/
structure Doc where
  hrefs : List String := []
  title : String := ""
  forms : List SForm := []
  inputs : List InputField := []
  headers : List (String × Nat) := []
  meta_tags : List (String × String) := []
  word_count : Nat := 0
  structured : StructuredData := {}
deriving DecidableEq, Repr

/-- One HTTP response: final status code plus parsed document. -/
structure Fetched where
  status : Nat
  doc : Doc
deriving DecidableEq, Repr

/-- `ScrapyEngine._extract_links_from_soup`: non-empty hrefs that are not
`mailto:`/`javascript:`, resolved, then `list(set(...))` deduplicated. -/
def extract_links_from_soup (join : String → String → String) (base_url : String)
    (d : Doc) : List String :=
  ((d.hrefs.filter (fun h =>
      !h.data.isEmpty && !strStartsWith h "mailto:" && !strStartsWith h "javascript:")).map
    (join base_url)).dedup

/-- `ScrapyEngine._extract_crawlable_links`: hrefs not starting with
`mailto:`/`javascript:`/`#`, resolved, kept when the resolved scheme is
http or https. -/
def extract_crawlable_links (join : String → String → String) (base_url : String)
    (d : Doc) : List String :=
  ((d.hrefs.filter (fun h =>
      !(strStartsWith h "mailto:" || strStartsWith h "javascript:" || strStartsWith h "#"))).map
    (join base_url)).filter
    (fun u => schemeOf u == "http" || schemeOf u == "https")

/-- A page record as built by `ScrapyEngine._parse_page`. -/
structure PageData where
  url : String
  title : String
  links : List String
  forms : List SForm
  inputs : List InputField
  headers : List (String × Nat)
  meta_tags : List (String × String)
  word_count : Nat
deriving DecidableEq, Repr

/-- `ScrapyEngine._parse_page`. -/
def parse_page (join : String → String → String) (url : String) (d : Doc) : PageData :=
  { url := url
    title := d.title
    links := extract_links_from_soup join url d
    forms := d.forms
    inputs := d.inputs
    headers := d.headers
    meta_tags := d.meta_tags
    word_count := d.word_count }

/-- The loop body of `ScrapyEngine._crawl_depth` over the (already capped)
link list.  Returns the crawled pages, the updated visited set, and the log
of URLs actually fetched (`session.get` calls), in order. -/
def crawlDepthGo (web : String → Option Fetched) (join : String → String → String)
    (base_url : String) :
    List String → List String → List PageData × List String × List String
  | [], visited => ([], visited, [])
  | link :: rest, visited =>
    if link ∉ visited ∧ netloc link = netloc base_url then
      let visited1 := link :: visited
      match web link with
      | none =>
        -- fetch raised: logged as attempted, page skipped
        let (ps, vis, log) := crawlDepthGo web join base_url rest visited1
        (ps, vis, link :: log)
      | some f =>
        let (ps, vis, log) := crawlDepthGo web join base_url rest visited1
        if f.status = 200 then (parse_page join link f.doc :: ps, vis, link :: log)
        else (ps, vis, link :: log)
    else
      crawlDepthGo web join base_url rest visited

/-- `ScrapyEngine._crawl_depth`: processes `links[:5]` (the fixed per-level
fan-out cap) against the engine's visited set. -/
def crawl_depth (web : String → Option Fetched) (join : String → String → String)
    (links : List String) (base_url : String) (visited : List String) :
    List PageData × List String × List String :=
  crawlDepthGo web join base_url (links.take 5) visited

/-- Mutable engine state: `self.visited_urls`, set up once in
`ScrapyEngine.__init__` and never cleared. -/
structure ScrapyState where
  visited_urls : List String
deriving DecidableEq, Repr

/-- The `results` dict of `ScrapyEngine.crawl`. -/
structure ScrapyResults where
  engine : String
  url : String
  depth : Nat
  status_code : Nat
  pages_crawled : List PageData
  total_links_found : Nat
  total_forms_found : Nat
  total_inputs_found : Nat
  structured_data : StructuredData
deriving DecidableEq, Repr

/-- One `crawl` invocation's observable effects: the returned value, the
engine state afterwards, and the URLs fetched (in order). -/
structure CrawlRun where
  result : Except String ScrapyResults
  state : ScrapyState
  fetch_log : List String
deriving Repr

/-- `ScrapyEngine.crawl`: fetches the seed (`raise_for_status` turns a 4xx/5xx
answer, like any fetch exception, into the `success: False` branch), then,
when `max_depth > 1`, crawls one extra level through `_crawl_depth`, and
aggregates per-page counts.  The seed URL is **not** added to
`visited_urls`, and the state persists into the next invocation — both
faithful to the source. -/
def scrapy_crawl (web : String → Option Fetched) (join : String → String → String)
    (st : ScrapyState) (url : String) (max_depth : Nat) : CrawlRun :=
  match web url with
  | none => { result := .error "request failed", state := st, fetch_log := [url] }
  | some f =>
    if 400 ≤ f.status then
      { result := .error "http error", state := st, fetch_log := [url] }
    else
      let seedPage := parse_page join url f.doc
      let step :=
        if 1 < max_depth then
          crawl_depth web join (extract_crawlable_links join url f.doc) url st.visited_urls
        else ([], st.visited_urls, [])
      let pages := seedPage :: step.1
      { result := .ok
          { engine := "scrapy"
            url := url
            depth := max_depth
            status_code := f.status
            pages_crawled := pages
            total_links_found := (pages.map (fun p => p.links.length)).sum
            total_forms_found := (pages.map (fun p => p.forms.length)).sum
            total_inputs_found := (pages.map (fun p => p.inputs.length)).sum
            structured_data := f.doc.structured }
        state := { visited_urls := step.2.1 }
        fetch_log := url :: step.2.2 }

/-! ## middleware.py — `DataProcessor`

The `data` dict a crawler hands to the middleware, one structure per engine
family; keys the engine may omit (e.g. the login-flavored results) are
`Option`s, read back with the source's `dict.get` defaults. -/

/-- A form field dict (`_extract_forms` of the static-HTML crawler); the
textarea branch omits the `value` key. -/
structure FormField where
  type : String
  name : String
  id : String := ""
  value : Option String := none
  required : Bool := false
deriving DecidableEq, Repr

/-- A form dict of the static-HTML crawler. -/
structure Form where
  name : String := ""
  id : String := ""
  action : String := ""
  method : String := "GET"
  fields : List FormField := []
deriving DecidableEq, Repr

/-- A form dict of the browser engines (attributes may be null). -/
structure BForm where
  name : Option String := none
  action : Option String := none
  method : Option String := none
deriving DecidableEq, Repr

/-- The `data` dict of `BeautifulSoupCrawler.crawl` / `crawl_with_login`. -/
structure BSoupRaw where
  url : Option String := none
  status_code : Option Nat := none
  title : Option String := none
  links : Option LinksInfo := none
  forms : Option (List Form) := none
  inputs : Option (List InputField) := none
  page_size : Option Nat := none
  javascript_enabled : Option Bool := none
  authenticated : Option Bool := none
  login_url : Option String := none
  target_url : Option String := none
  meta_tags : Option (List (String × String)) := none
  text_content : Option String := none
deriving DecidableEq, Repr

/-- The `results` dict of `ScrapyEngine.crawl` as the middleware sees it. -/
structure ScrapyRaw where
  url : Option String := none
  depth : Option Nat := none
  status_code : Option Nat := none
  pages_crawled : Option (List PageData) := none
  total_links_found : Option Nat := none
  total_forms_found : Option Nat := none
  total_inputs_found : Option Nat := none
  structured_data : Option StructuredData := none
deriving DecidableEq, Repr

/-- The `data` dict of the Selenium / Playwright engines. -/
structure BrowserRaw where
  url : Option String := none
  title : Option String := none
  current_url : Option String := none
  links : Option (List String) := none
  forms : Option (List BForm) := none
  inputs : Option (List InputField) := none
  cookies : Option (List (String × String)) := none
  page_size : Option Nat := none
  javascript_enabled : Option Bool := none
  authenticated : Option Bool := none
  redirected_url : Option String := none
deriving DecidableEq, Repr

/-- A crawl `data` dict together with its `engine` tag.  The repository's
engines produce exactly these four shapes; `emptyData` stands for the `{}`
default used when the `data` key is absent (engine tag `unknown`). -/
inductive EngineData where
  | scrapy (d : ScrapyRaw)
  | beautifulsoup (d : BSoupRaw)
  | selenium (d : BrowserRaw)
  | playwright (d : BrowserRaw)
  | emptyData
deriving DecidableEq, Repr

/-- `data.get('engine', 'unknown')`. -/
def engineTag : EngineData → String
  | .scrapy _ => "scrapy"
  | .beautifulsoup _ => "beautifulsoup"
  | .selenium _ => "selenium"
  | .playwright _ => "playwright"
  | .emptyData => "unknown"

/-- `data.get('url', '')`. -/
def urlOf : EngineData → String
  | .scrapy d => d.url.getD ""
  | .beautifulsoup d => d.url.getD ""
  | .selenium d => d.url.getD ""
  | .playwright d => d.url.getD ""
  | .emptyData => ""

/-- `data.get('title', '')` (the scrapy results dict has no `title` key). -/
def titleOf : EngineData → String
  | .beautifulsoup d => d.title.getD ""
  | .selenium d => d.title.getD ""
  | .playwright d => d.title.getD ""
  | _ => ""

/-- `data.get('inputs', [])` (the scrapy results dict has no `inputs` key). -/
def inputsOf : EngineData → List InputField
  | .beautifulsoup d => d.inputs.getD []
  | .selenium d => d.inputs.getD []
  | .playwright d => d.inputs.getD []
  | _ => []

/-- `len(data.get('forms', []))`. -/
def formsLen : EngineData → Nat
  | .beautifulsoup d => (d.forms.getD []).length
  | .selenium d => (d.forms.getD []).length
  | .playwright d => (d.forms.getD []).length
  | _ => 0

/-- `data.get('authenticated', False)`. -/
def authOf : EngineData → Bool
  | .beautifulsoup d => d.authenticated.getD false
  | .selenium d => d.authenticated.getD false
  | .playwright d => d.authenticated.getD false
  | _ => false

/-- The dynamically-typed value under the `links` key (a categorized dict
for the static-HTML engine, a flat URL list for the browser engines). -/
inductive LinksVal where
  | info (li : LinksInfo)
  | strs (ls : List String)
deriving DecidableEq, Repr

/-- `data.get('links', [])` as carried into the vulnerability target. -/
def linksOf : EngineData → LinksVal
  | .beautifulsoup d => match d.links with
    | some li => .info li
    | none => .strs []
  | .selenium d => .strs (d.links.getD [])
  | .playwright d => .strs (d.links.getD [])
  | _ => .strs []

/-- The dynamically-typed value under the `forms` key. -/
inductive FormsVal where
  | bs (fs : List Form)
  | br (fs : List BForm)
deriving DecidableEq, Repr

/-- `data.get('forms', [])` as carried into the vulnerability target. -/
def formsOf : EngineData → FormsVal
  | .beautifulsoup d => .bs (d.forms.getD [])
  | .selenium d => .br (d.forms.getD [])
  | .playwright d => .br (d.forms.getD [])
  | _ => .bs []

/-- A JSON-ish value appearing in the per-engine projection dicts. -/
inductive JVal where
  | str (s : String)
  | num (n : Nat)
  | rat (q : ℚ)
  | bool (b : Bool)
  | pages (ps : List PageData)
  | sdata (sd : StructuredData)
deriving DecidableEq, Repr

/-- `DataProcessor._process_scrapy_data`. -/
def process_scrapy_data (d : ScrapyRaw) : List (String × JVal) :=
  [("pages_crawled", .num (d.pages_crawled.getD []).length),
   ("total_links", .num (d.total_links_found.getD 0)),
   ("total_forms", .num (d.total_forms_found.getD 0)),
   ("total_inputs", .num (d.total_inputs_found.getD 0)),
   ("structured_data", .sdata (d.structured_data.getD {})),
   ("depth", .num (d.depth.getD 1)),
   ("pages", .pages ((d.pages_crawled.getD []).take 10))]

/-- `DataProcessor._process_beautifulsoup_data`. -/
def process_beautifulsoup_data (d : BSoupRaw) : List (String × JVal) :=
  let links_info := d.links.getD {}
  [("status_code", .num (d.status_code.getD 0)),
   ("total_links", .num (links_info.total.getD 0)),
   ("internal_links", .num (links_info.internal.getD 0)),
   ("external_links", .num (links_info.external.getD 0)),
   ("email_links", .num (links_info.email.getD 0)),
   ("forms_count", .num (d.forms.getD []).length),
   ("inputs_count", .num (d.inputs.getD []).length),
   ("page_size_kb", .rat ((d.page_size.getD 0 : ℚ) / 1024)),
   ("has_javascript", .bool (d.javascript_enabled.getD false))]

/-- `DataProcessor._process_browser_data`. -/
def process_browser_data (d : BrowserRaw) : List (String × JVal) :=
  [("title", .str (d.title.getD "")),
   ("current_url", .str (d.current_url.getD "")),
   ("redirected", .bool (d.url != d.current_url)),
   ("forms_count", .num (d.forms.getD []).length),
   ("inputs_count", .num (d.inputs.getD []).length),
   ("links_count", .num (d.links.getD []).length),
   ("cookies_count", .num (d.cookies.getD []).length),
   ("page_size_kb", .rat ((d.page_size.getD 0 : ℚ) / 1024)),
   ("javascript_enabled", .bool (d.javascript_enabled.getD false)),
   ("authenticated", .bool (d.authenticated.getD false))]

/-- Result of `_process_engine_data`: a re-shaped key/value dict for the
known engines, the untouched input for the fall-through branch. -/
inductive ProcEngineOut where
  | table (kvs : List (String × JVal))
  | raw (d : EngineData)
deriving DecidableEq, Repr

/-- `DataProcessor._process_engine_data` — dispatch on the engine tag. -/
def process_engine_data : EngineData → ProcEngineOut
  | .scrapy d => .table (process_scrapy_data d)
  | .beautifulsoup d => .table (process_beautifulsoup_data d)
  | .selenium d => .table (process_browser_data d)
  | .playwright d => .table (process_browser_data d)
  | .emptyData => .raw .emptyData

/-- Keys of a projection table (empty for the fall-through branch). -/
def tableKeys : ProcEngineOut → List String
  | .table kvs => kvs.map Prod.fst
  | .raw _ => []

/-- The sensitive keyword list of `_identify_sensitive_fields`. -/
def sensitive_keywords : List String :=
  ["password", "pin", "secret", "token", "key", "api",
   "credit", "card", "cvv", "ssn", "auth"]

/-- The per-field test of `_identify_sensitive_fields`: some keyword occurs
in the lower-cased name or the lower-cased type. -/
def sensitiveMatchStr (name ty : String) : Bool :=
  sensitive_keywords.any (fun kw =>
    containsSub (strToLower name) kw || containsSub (strToLower ty) kw)

/-- The test applied to one entry of the `inputs` list. -/
def matchesSensitive (inp : InputField) : Bool :=
  sensitiveMatchStr inp.name inp.type

/-- `DataProcessor._identify_sensitive_fields`: scans `crawl_data['inputs']`
(and nothing else) against the keyword list. -/
def identify_sensitive_fields (d : EngineData) : List InputField :=
  (inputsOf d).filter matchesSensitive

/-- Ordered-dict counter update used by `_categorize_inputs`. -/
def bumpCount (m : List (String × Nat)) (k : String) : List (String × Nat) :=
  if m.any (fun kv => kv.1 == k) then
    m.map (fun kv => if kv.1 == k then (kv.1, kv.2 + 1) else kv)
  else m ++ [(k, 1)]

/-- `DataProcessor._categorize_inputs`. -/
def categorize_inputs (inputs : List InputField) : List (String × Nat) :=
  inputs.foldl (fun m inp => bumpCount m (strToLower inp.type)) []

/-- The `network_info` sub-dict of the enrichment (built only when network
data is present). -/
structure NetworkInfoData where
  ip_addresses : List String
  reachable : Bool
  open_ports : List Nat
  services : List (Nat × String)
deriving DecidableEq, Repr

/-- The enrichment dict of `_enrich_data`. -/
structure Enriched where
  form_count : Nat
  input_types : List (String × Nat)
  sensitive_fields : List InputField
  network_info : Option NetworkInfoData
deriving DecidableEq, Repr

/-- `DataProcessor._enrich_data`. -/
def enrich_data (d : EngineData) (network_data : Option ScanOutput) : Enriched :=
  { form_count := formsLen d
    input_types := categorize_inputs (inputsOf d)
    sensitive_fields := identify_sensitive_fields d
    network_info := network_data.map (fun n =>
      { ip_addresses := n.summary.target_info.ip_addresses
        reachable := n.summary.target_info.reachable
        open_ports := n.summary.open_ports
        services := n.summary.services }) }

/-- The `network_context` sub-dict of the vulnerability payload. -/
structure NetworkContextData where
  ip_addresses : List String
  open_ports : List Nat
  services : List (Nat × String)
  network_accessible : Bool
deriving DecidableEq, Repr

/-- The `target` sub-dict of the vulnerability payload. -/
structure VulnTarget where
  url : String
  title : String
  forms : FormsVal
  inputs : List InputField
  links : LinksVal
deriving DecidableEq, Repr

/-- The dict built by `_prepare_for_vulnerability_scan`. -/
structure VulnData where
  target : VulnTarget
  network_context : Option NetworkContextData
  injectable_parameters : List String
  authentication_required : Bool
deriving DecidableEq, Repr

/-- The fixed text-like input-type list of the injectable-parameter loop. -/
def textLikeTypes : List String := ["text", "email", "number", "search", "url"]

/-- `DataProcessor._prepare_for_vulnerability_scan`. -/
def prepare_for_vulnerability_scan (d : EngineData) (network_data : Option ScanOutput) :
    VulnData :=
  { target :=
      { url := urlOf d
        title := titleOf d
        forms := formsOf d
        inputs := inputsOf d
        links := linksOf d }
    network_context := network_data.map (fun n =>
      { ip_addresses := n.summary.target_info.ip_addresses
        open_ports := n.summary.open_ports
        services := n.summary.services
        network_accessible := n.summary.network_accessible })
    injectable_parameters :=
      ((inputsOf d).filter (fun inp => inp.type ∈ textLikeTypes)).map (fun inp => inp.name)
    authentication_required := authOf d }

/-- A crawl engine's wrapper dict `{'success': ..., 'error': ..., 'data': ...}`. -/
structure CrawlResult where
  success : Bool
  error : Option String := none
  data : EngineData := .emptyData
deriving DecidableEq, Repr

/-- The processed record assembled by `process_crawl_data` on success. -/
structure Processed where
  source_engine : String
  target_url : String
  crawl_data : ProcEngineOut
  network_data : Option ScanOutput
  enriched_data : Enriched
  vulnerability_scan_ready : VulnData
deriving DecidableEq, Repr

/-- `process_crawl_data`'s two outcomes. -/
inductive ProcessResult where
  | failure (error : Option String)
  | ok (p : Processed)
deriving DecidableEq, Repr

/-- `DataProcessor.process_crawl_data`: the fusion / enrichment entry point.
A pure, total function of its two arguments — the embedding has no state,
I/O, or exception channel, mirroring the source, which only reads its
argument dicts. -/
def process_crawl_data (crawl_result : CrawlResult) (network_data : Option ScanOutput) :
    ProcessResult :=
  if !crawl_result.success then .failure crawl_result.error
  else
    .ok { source_engine := engineTag crawl_result.data
          target_url := urlOf crawl_result.data
          crawl_data := process_engine_data crawl_result.data
          network_data := network_data
          enriched_data := enrich_data crawl_result.data network_data
          vulnerability_scan_ready :=
            prepare_for_vulnerability_scan crawl_result.data network_data }

/-! ## Concrete instances used by negative results and witnesses -/

/-- Identity resolution: `urljoin(base, href)` is the identity whenever
`href` is already an absolute URL, which is the case in every concrete
scenario below. -/
def jId : String → String → String := fun _ href => href

/-- Scan data with a reachable host that resolves only over IPv6. -/
def srIpv6Only : ScanData :=
  { hostname := "h"
    ping_results := { success := true, host_reachable := some true }
    dns_results :=
      { success := true, ipv4_addresses := some [], ipv6_addresses := some ["2001:db8::1"] }
    traceroute_results := { success := false }
    nmap_results := { success := false }
    socket_info := { success := false } }

/-- All form fields of a crawl-result data dict (the spec's "inputs / form
fields" universe; the source's detection never looks at these). -/
def formFieldsOf : EngineData → List FormField
  | .beautifulsoup d => (d.forms.getD []).flatMap (fun f => f.fields)
  | _ => []

/-- A crawl result whose only sensitive data sits in a form field, not in
the flat `inputs` list. -/
def cdFormOnly : EngineData :=
  .beautifulsoup
    { inputs := some []
      forms := some [{ fields := [{ type := "password", name := "user_password" }] }] }

/-- Seed document for the fan-out scenarios: eight same-host links, the
first being the seed URL itself. -/
def docSelfLink : Doc :=
  { hrefs := ["http://h/s", "http://h/1", "http://h/2", "http://h/3",
              "http://h/4", "http://h/5", "http://h/6", "http://h/7"] }

/-- Web for the duplicate-seed-fetch scenario. -/
def webSelfLink : String → Option Fetched := fun u =>
  if u = "http://h/s" then some { status := 200, doc := docSelfLink }
  else if netloc u = "h" then some { status := 200, doc := {} }
  else none

/-- Seed document for the depth-cap witness: eight distinct same-host links,
none of them the seed. -/
def docFanOut : Doc :=
  { hrefs := ["http://h/1", "http://h/2", "http://h/3", "http://h/4",
              "http://h/5", "http://h/6", "http://h/7", "http://h/8"] }

/-- Web for the depth-cap witness. -/
def webFanOut : String → Option Fetched := fun u =>
  if u = "http://h/0" then some { status := 200, doc := docFanOut }
  else if netloc u = "h" then some { status := 200, doc := {} }
  else none

/-- Fetch results of `webFanOut`, as a total function. -/
def fetchedFanOut : String → Fetched := fun u =>
  if u = "http://h/0" then { status := 200, doc := docFanOut }
  else { status := 200, doc := {} }

/-- Web for the two-invocation scenario: the seed links to one page. -/
def webTwoRun : String → Option Fetched := fun u =>
  if u = "http://h/s" then some { status := 200, doc := { hrefs := ["http://h/a"] } }
  else if u = "http://h/a" then some { status := 200, doc := {} }
  else none

/-- Page count of a crawl outcome (0 for the failure branch). -/
def pagesLen : Except String ScrapyResults → Nat
  | .ok r => r.pages_crawled.length
  | .error _ => 0

/-- A successful static-HTML crawl result used as a generic concrete input. -/
def crawlResultEx : CrawlResult :=
  { success := true
    data := .beautifulsoup { url := some "http://h/", inputs := some [{ type := "text", name := "q" }] } }

/-! ## Helper lemmas -/

theorem dedup_length_le {α : Type} [DecidableEq α] (l : List α) :
    l.dedup.length ≤ l.length :=
  l.dedup_sublist.length_le

theorem dedup_length_lt {α : Type} [DecidableEq α] {l : List α} (h : ¬l.Nodup) :
    l.dedup.length < l.length := by
  rcases Nat.lt_or_ge l.dedup.length l.length with hlt | hge
  · exact hlt
  · exact absurd (l.dedup_sublist.eq_of_length (Nat.le_antisymm (dedup_length_le l) hge) ▸
      l.nodup_dedup) h

theorem count_le_count_filterMap {α β : Type} [DecidableEq α] [DecidableEq β]
    (f : α → Option β) (a : α) (b : β) (hf : f a = some b) :
    ∀ l : List α, l.count a ≤ (l.filterMap f).count b := by
  intro l
  induction l with
  | nil => simp
  | cons x xs ih =>
    rcases hfx : f x with _ | c
    · have hxa : (x == a) = false := by
        simp only [beq_eq_false_iff_ne]
        rintro rfl
        rw [hf] at hfx
        cases hfx
      simp only [List.filterMap_cons, hfx, List.count_cons, hxa, Bool.false_eq_true,
        if_false]
      omega
    · simp only [List.filterMap_cons, hfx, List.count_cons]
      split_ifs with h1 h2 h2
      · omega
      · exfalso
        simp only [beq_iff_eq] at h1 h2
        subst h1
        rw [hf] at hfx
        exact h2 (Option.some.inj hfx).symm
      · omega
      · omega

theorem not_nodup_of_two_le_count {α : Type} [DecidableEq α] {l : List α} {a : α}
    (h : 2 ≤ l.count a) : ¬l.Nodup := by
  intro hn
  have := List.nodup_iff_count_le_one.mp hn a
  omega

/-! ## Claims -/

/-- C1, counterexample: a host that is reachable and resolves only over
IPv6 has a non-empty merged `ip_addresses` set yet `network_accessible`
comes out `false`, because the source tests only the IPv4 list.  This
refutes `network_accessible == (reachable AND ip_addresses non-empty)`. -/
theorem network_accessible_ipv6_counterexample :
    (generate_summary srIpv6Only).network_accessible = false ∧
    (generate_summary srIpv6Only).target_info.reachable = true ∧
    (generate_summary srIpv6Only).target_info.ip_addresses ≠ [] := by
  refine ⟨rfl, rfl, ?_⟩
  decide

/-- C1, amended: for every scan result, `network_accessible` is true iff the
reachability probe reported the host reachable AND the **IPv4** resolution
list is non-empty; IPv6-only resolutions do not count. -/
theorem network_accessible_iff (sr : ScanData) :
    (generate_summary sr).network_accessible = true ↔
      ((generate_summary sr).target_info.reachable = true ∧
        sr.dns_results.ipv4_addresses.getD [] ≠ []) := by
  unfold generate_summary
  simp only [Bool.and_eq_true, Bool.not_eq_true']
  constructor
  · rintro ⟨h1, h2⟩
    refine ⟨h1, ?_⟩
    intro he
    rw [he] at h2
    simp at h2
  · rintro ⟨h1, h2⟩
    refine ⟨h1, ?_⟩
    cases hh : (sr.dns_results.ipv4_addresses.getD []).isEmpty
    · rfl
    · exact absurd (List.isEmpty_iff.mp hh) h2

/-- C4, counterexample: the scrapy projection of a successful crawl result
contains no `status_code` key and the static-HTML projection contains no
`authenticated` key — there is no engine-agnostic fixed field set. -/
theorem normalized_projection_counterexample :
    tableKeys (process_engine_data (.scrapy {})) =
      ["pages_crawled", "total_links", "total_forms", "total_inputs",
       "structured_data", "depth", "pages"] ∧
    "status_code" ∉ tableKeys (process_engine_data (.scrapy {})) ∧
    "authenticated" ∉ tableKeys (process_engine_data (.beautifulsoup {})) ∧
    "status_code" ∉ tableKeys (process_engine_data (.selenium {})) := by
  refine ⟨rfl, ?_, ?_, ?_⟩ <;> decide

/-- C4, amended: each engine family has its own fixed projection field set,
independent of which source fields are present, and within each projection
a missing source field resolves to that field's fixed default — zero,
false, or empty for every field except the scrapy projection's `depth`,
whose `dict.get` default is 1 — rather than the key being omitted. -/
theorem normalized_projection_per_engine (s : ScrapyRaw) (b : BSoupRaw) (br : BrowserRaw) :
    tableKeys (process_engine_data (.scrapy s)) =
      ["pages_crawled", "total_links", "total_forms", "total_inputs",
       "structured_data", "depth", "pages"] ∧
    tableKeys (process_engine_data (.beautifulsoup b)) =
      ["status_code", "total_links", "internal_links", "external_links",
       "email_links", "forms_count", "inputs_count", "page_size_kb", "has_javascript"] ∧
    tableKeys (process_engine_data (.selenium br)) =
      ["title", "current_url", "redirected", "forms_count", "inputs_count",
       "links_count", "cookies_count", "page_size_kb", "javascript_enabled",
       "authenticated"] ∧
    tableKeys (process_engine_data (.playwright br)) =
      tableKeys (process_engine_data (.selenium br)) ∧
    process_engine_data (.scrapy {}) = .table
      [("pages_crawled", .num 0), ("total_links", .num 0), ("total_forms", .num 0),
       ("total_inputs", .num 0), ("structured_data", .sdata {}), ("depth", .num 1),
       ("pages", .pages [])] ∧
    process_engine_data (.beautifulsoup {}) = .table
      [("status_code", .num 0), ("total_links", .num 0), ("internal_links", .num 0),
       ("external_links", .num 0), ("email_links", .num 0), ("forms_count", .num 0),
       ("inputs_count", .num 0), ("page_size_kb", .rat 0), ("has_javascript", .bool false)] ∧
    process_engine_data (.selenium {}) = .table
      [("title", .str ""), ("current_url", .str ""), ("redirected", .bool false),
       ("forms_count", .num 0), ("inputs_count", .num 0), ("links_count", .num 0),
       ("cookies_count", .num 0), ("page_size_kb", .rat 0),
       ("javascript_enabled", .bool false), ("authenticated", .bool false)] := by
  refine ⟨rfl, rfl, rfl, rfl, ?_, ?_, ?_⟩
  · decide
  · simp [process_engine_data, process_beautifulsoup_data]
  · simp [process_engine_data, process_browser_data]

/-- C7: `injectable_parameters` contains exactly the names of the inputs
whose `type` is in the fixed text-like set `{text, email, number, search,
url}`; an input typed `checkbox`, `hidden` or `submit` never contributes a
name. -/
theorem injectable_parameters_exactly (d : EngineData) (nd : Option ScanOutput) (n : String) :
    n ∈ (prepare_for_vulnerability_scan d nd).injectable_parameters ↔
      ∃ inp ∈ inputsOf d, inp.type ∈ textLikeTypes ∧ inp.name = n := by
  simp only [prepare_for_vulnerability_scan, List.mem_map, List.mem_filter,
    decide_eq_true_eq]
  constructor
  · rintro ⟨inp, ⟨hmem, hty⟩, hname⟩
    exact ⟨inp, hmem, hty, hname⟩
  · rintro ⟨inp, hmem, hty, hname⟩
    exact ⟨inp, ⟨hmem, hty⟩, hname⟩

/-- C8: with the port-scan tool absent, `_nmap_scan` reports a tagged
`success=False` / `nmap not installed` value instead of raising, the other
probe results flow through untouched, and the generated summary carries
`open_ports = []` and `services = {}` — the aggregator still returns a
full summary. -/
theorem scan_target_tool_unavailable (url : String) (ping : PingResults)
    (dns : DnsResults) (trace : TracerouteResults) (sock : SocketInfo) :
    (scan_target url ⟨ping, dns, trace, sock, .toolMissing⟩).nmap_results.success = false ∧
    (scan_target url ⟨ping, dns, trace, sock, .toolMissing⟩).nmap_results.error =
      some "nmap not installed" ∧
    (scan_target url ⟨ping, dns, trace, sock, .toolMissing⟩).summary.open_ports = [] ∧
    (scan_target url ⟨ping, dns, trace, sock, .toolMissing⟩).summary.services = [] ∧
    (scan_target url ⟨ping, dns, trace, sock, .toolMissing⟩).ping_results = ping ∧
    (scan_target url ⟨ping, dns, trace, sock, .toolMissing⟩).dns_results = dns ∧
    (scan_target url ⟨ping, dns, trace, sock, .toolMissing⟩).traceroute_results = trace ∧
    (scan_target url ⟨ping, dns, trace, sock, .toolMissing⟩).socket_info = sock ∧
    (scan_target url ⟨ping, dns, trace, sock, .toolMissing⟩).summary =
      generate_summary (scan_target url ⟨ping, dns, trace, sock, .toolMissing⟩).toScanData :=
  ⟨rfl, rfl, rfl, rfl, rfl, rfl, rfl, rfl, rfl⟩

/-- C9: the fusion / enrichment processor is a pure function of its two
inputs — two calls on equal inputs produce equal Enriched Records.  (The
embedding is total and stateless exactly because the source only reads its
argument dicts: no I/O, no external calls, no mutation.) -/
theorem process_crawl_data_deterministic (cr cr' : CrawlResult)
    (nd nd' : Option ScanOutput) (hc : cr = cr') (hn : nd = nd') :
    process_crawl_data cr nd = process_crawl_data cr' nd' := by
  subst hc; subst hn; rfl

/-- C9, witness: the determinism theorem applied at a concrete crawl
result. -/
theorem process_crawl_data_deterministic_witness :
    process_crawl_data crawlResultEx none = process_crawl_data crawlResultEx none :=
  process_crawl_data_deterministic crawlResultEx crawlResultEx none none rfl rfl

/-- C2, counterexample: a crawl result whose only credential-looking field
sits inside `forms[..].fields` — the keyword test matches it, yet
`_identify_sensitive_fields` returns nothing, because the source scans only
the flat `inputs` list, never the form fields. -/
theorem sensitive_fields_form_counterexample :
    (∃ fld ∈ formFieldsOf cdFormOnly, sensitiveMatchStr fld.name fld.type = true) ∧
    identify_sensitive_fields cdFormOnly = [] := by
  constructor
  · decide
  · decide

/-- C2, amended: sensitive-field detection scans exactly the crawl result's
flat `inputs` list (form fields are not scanned) and keeps precisely the
inputs whose name or type contains one of the eleven keywords as a
case-insensitive substring. -/
theorem sensitive_fields_inputs_only (d : EngineData) (inp : InputField) :
    inp ∈ identify_sensitive_fields d ↔
      inp ∈ inputsOf d ∧
        (["password", "pin", "secret", "token", "key", "credit", "card",
          "cvv", "ssn", "api", "auth"].any (fun kw =>
            containsSub (strToLower inp.name) kw ||
              containsSub (strToLower inp.type) kw)) = true := by
  simp only [identify_sensitive_fields, List.mem_filter, matchesSensitive, sensitiveMatchStr,
    sensitive_keywords, List.any_cons, List.any_nil, Bool.or_eq_true, Bool.or_false]
  tauto

/-- C2/C7 concrete checks: an input named `Password1` (or typed `password`)
is caught by the keyword test, an input named `username` typed `text` is
not; the latter is injectable instead. -/
theorem sensitive_fields_concrete :
    matchesSensitive { type := "text", name := "Password1" } = true ∧
    matchesSensitive { type := "password", name := "x" } = true ∧
    matchesSensitive { type := "text", name := "username" } = false := by
  refine ⟨?_, ?_, ?_⟩ <;> decide

/-- C3, counterexample: under the source's substring test, an href on a
different host that merely mentions the request host in its path is
classified internal — host components are never compared for equality. -/
theorem link_classification_counterexample :
    classifyHref jId (netloc "http://a.com/") "http://a.com/" "http://evil.com/a.com"
      = .internal "http://evil.com/a.com" ∧
    netloc "http://evil.com/a.com" ≠ netloc "http://a.com/" := by
  constructor
  · decide
  · decide

/-- The two raw buckets together count exactly the hrefs that are neither
`mailto:` nor `javascript:`. -/
theorem bucket_lengths (join : String → String → String) (base_url : String) :
    ∀ hrefs : List String,
      (internalBucket join base_url hrefs).length +
          (externalBucket join base_url hrefs).length =
        hrefs.countP (fun x =>
          !strStartsWith x "mailto:" && !strStartsWith x "javascript:") := by
  intro hrefs
  induction hrefs with
  | nil => rfl
  | cons x xs ih =>
    unfold internalBucket externalBucket at ih ⊢
    simp only [List.filterMap_cons, List.countP_cons]
    cases hm : strStartsWith x "mailto:" with
    | true =>
      have hcls : classifyHref join (netloc base_url) base_url x = .email := by
        simp [classifyHref, hm]
      simp only [hcls, Bool.not_true, Bool.false_and, Bool.false_eq_true, if_false]
      omega
    | false =>
      cases hj : strStartsWith x "javascript:" with
      | true =>
        have hcls : classifyHref join (netloc base_url) base_url x = .discard := by
          simp [classifyHref, hm, hj]
        simp only [hcls, Bool.not_true, Bool.not_false, Bool.true_and,
          Bool.false_eq_true, if_false]
        omega
      | false =>
        cases hh : strStartsWith x "http" with
        | false =>
          have hcls : classifyHref join (netloc base_url) base_url x
              = .internal (join base_url x) := by
            simp [classifyHref, hm, hj, hh]
          simp [hcls]
          omega
        | true =>
          cases hs : containsSub x (netloc base_url) with
          | true =>
            have hcls : classifyHref join (netloc base_url) base_url x = .internal x := by
              simp [classifyHref, hm, hj, hh, hs]
            simp [hcls]
            omega
          | false =>
            have hcls : classifyHref join (netloc base_url) base_url x = .external x := by
              simp [classifyHref, hm, hj, hh, hs]
            simp [hcls]
            omega

/-- C3, amended: each discovered href is routed by the source's elif chain —
`mailto:` hrefs to the email bucket, `javascript:` hrefs discarded, hrefs
starting with `http` split internal/external by the substring test
`base_domain in href` (not by host equality), and every remaining href
resolved with `urljoin` and unconditionally placed in the internal bucket;
the `total` count covers exactly the non-`mailto:` non-`javascript:` hrefs
and the email bucket is exactly the `mailto:` hrefs. -/
theorem link_classification (join : String → String → String) (base_url h : String) :
    (strStartsWith h "mailto:" = true →
      classifyHref join (netloc base_url) base_url h = .email) ∧
    (strStartsWith h "mailto:" = false → strStartsWith h "javascript:" = true →
      classifyHref join (netloc base_url) base_url h = .discard) ∧
    (strStartsWith h "mailto:" = false → strStartsWith h "javascript:" = false →
      strStartsWith h "http" = true →
      ((classifyHref join (netloc base_url) base_url h = .internal h ↔
          containsSub h (netloc base_url) = true) ∧
        (classifyHref join (netloc base_url) base_url h = .external h ↔
          containsSub h (netloc base_url) = false))) ∧
    (strStartsWith h "mailto:" = false → strStartsWith h "javascript:" = false →
      strStartsWith h "http" = false →
      classifyHref join (netloc base_url) base_url h = .internal (join base_url h)) ∧
    (∀ hrefs : List String,
      (extract_links join base_url hrefs).total =
        some (hrefs.countP (fun x =>
          !strStartsWith x "mailto:" && !strStartsWith x "javascript:")) ∧
      (extract_links join base_url hrefs).email_links =
        some (hrefs.filter (fun x => strStartsWith x "mailto:"))) := by
  refine ⟨?_, ?_, ?_, ?_, ?_⟩
  · intro hm
    simp [classifyHref, hm]
  · intro hm hj
    simp [classifyHref, hm, hj]
  · intro hm hj hh
    cases hs : containsSub h (netloc base_url) with
    | true => simp [classifyHref, hm, hj, hh, hs]
    | false => simp [classifyHref, hm, hj, hh, hs]
  · intro hm hj hh
    simp [classifyHref, hm, hj, hh]
  · intro hrefs
    constructor
    · show some ((internalBucket join base_url hrefs).length +
        (externalBucket join base_url hrefs).length) = _
      rw [bucket_lengths]
    · rfl

/-- C3, witness: the classification facts applied to concrete hrefs. -/
theorem link_classification_witness :
    classifyHref jId (netloc "http://a.com/") "http://a.com/" "mailto:x@a.com" = .email ∧
    classifyHref jId (netloc "http://a.com/") "http://a.com/" "javascript:void(0)" = .discard ∧
    classifyHref jId (netloc "http://a.com/") "http://a.com/" "http://b.org/p" =
      .external "http://b.org/p" ∧
    classifyHref jId (netloc "http://a.com/") "http://a.com/" "/rel" =
      .internal (jId "http://a.com/" "/rel") :=
  ⟨(link_classification jId "http://a.com/" "mailto:x@a.com").1 (by decide),
   ((link_classification jId "http://a.com/" "javascript:void(0)").2.1 (by decide) (by decide)),
   (((link_classification jId "http://a.com/" "http://b.org/p").2.2.1
      (by decide) (by decide) (by decide)).2.mpr (by decide)),
   ((link_classification jId "http://a.com/" "/rel").2.2.2.1
      (by decide) (by decide) (by decide))⟩

/-- C10: the static-HTML link summary computes `total` from the raw buckets
but `internal`/`external` after deduplication, so
`internal + external ≤ total` always, strictly whenever the page repeats a
non-`mailto:` non-`javascript:` href. -/
theorem links_total_ge_dedup (join : String → String → String) (base_url : String)
    (hrefs : List String) :
    ((extract_links join base_url hrefs).internal.getD 0 +
        (extract_links join base_url hrefs).external.getD 0 ≤
      (extract_links join base_url hrefs).total.getD 0) ∧
    (∀ h, strStartsWith h "mailto:" = false → strStartsWith h "javascript:" = false →
      2 ≤ hrefs.count h →
      (extract_links join base_url hrefs).internal.getD 0 +
          (extract_links join base_url hrefs).external.getD 0 <
        (extract_links join base_url hrefs).total.getD 0) := by
  constructor
  · show (internalBucket join base_url hrefs).dedup.length +
        (externalBucket join base_url hrefs).dedup.length ≤
      (internalBucket join base_url hrefs).length +
        (externalBucket join base_url hrefs).length
    exact Nat.add_le_add (dedup_length_le _) (dedup_length_le _)
  · intro h hm hj hc
    show (internalBucket join base_url hrefs).dedup.length +
        (externalBucket join base_url hrefs).dedup.length <
      (internalBucket join base_url hrefs).length +
        (externalBucket join base_url hrefs).length
    cases hh : strStartsWith h "http" with
    | true =>
      cases hs : containsSub h (netloc base_url) with
      | true =>
        have hcls : classifyHref join (netloc base_url) base_url h = .internal h := by
          simp [classifyHref, hm, hj, hh, hs]
        have hcnt : 2 ≤ (internalBucket join base_url hrefs).count h :=
          le_trans hc (count_le_count_filterMap _ h h (by rw [hcls]) hrefs)
        exact Nat.add_lt_add_of_lt_of_le
          (dedup_length_lt (not_nodup_of_two_le_count hcnt)) (dedup_length_le _)
      | false =>
        have hcls : classifyHref join (netloc base_url) base_url h = .external h := by
          simp [classifyHref, hm, hj, hh, hs]
        have hcnt : 2 ≤ (externalBucket join base_url hrefs).count h :=
          le_trans hc (count_le_count_filterMap _ h h (by rw [hcls]) hrefs)
        exact Nat.add_lt_add_of_le_of_lt (dedup_length_le _)
          (dedup_length_lt (not_nodup_of_two_le_count hcnt))
    | false =>
      have hcls : classifyHref join (netloc base_url) base_url h
          = .internal (join base_url h) := by
        simp [classifyHref, hm, hj, hh]
      have hcnt : 2 ≤ (internalBucket join base_url hrefs).count (join base_url h) :=
        le_trans hc (count_le_count_filterMap _ h (join base_url h) (by rw [hcls]) hrefs)
      exact Nat.add_lt_add_of_lt_of_le
        (dedup_length_lt (not_nodup_of_two_le_count hcnt)) (dedup_length_le _)

/-- C10, witness: a page repeating one internal href has `total = 2` but
`internal + external = 1`. -/
theorem links_total_ge_dedup_witness :
    strStartsWith "http://x.com/a" "mailto:" = false ∧
    strStartsWith "http://x.com/a" "javascript:" = false ∧
    2 ≤ (["http://x.com/a", "http://x.com/a"] : List String).count "http://x.com/a" ∧
    (extract_links jId "http://x.com/" ["http://x.com/a", "http://x.com/a"]).internal.getD 0 +
        (extract_links jId "http://x.com/" ["http://x.com/a", "http://x.com/a"]).external.getD 0 <
      (extract_links jId "http://x.com/" ["http://x.com/a", "http://x.com/a"]).total.getD 0 :=
  ⟨by decide, by decide, by decide,
    (links_total_ge_dedup jId "http://x.com/" ["http://x.com/a", "http://x.com/a"]).2
      "http://x.com/a" (by decide) (by decide) (by decide)⟩

/-- Helper: one depth level over fresh, same-host, all-200 links fetches
every processed link exactly once, in order, marking each visited. -/
theorem crawlDepthGo_ok (web : String → Option Fetched) (join : String → String → String)
    (base_url : String) (F : String → Fetched) :
    ∀ (L : List String) (visited : List String), L.Nodup →
      (∀ l ∈ L, l ∉ visited ∧ netloc l = netloc base_url ∧
        web l = some (F l) ∧ (F l).status = 200) →
      crawlDepthGo web join base_url L visited =
        (L.map (fun l => parse_page join l (F l).doc), L.reverse ++ visited, L) := by
  intro L
  induction L with
  | nil =>
    intro visited _ _
    simp [crawlDepthGo]
  | cons l ls ih =>
    intro visited hnd hall
    obtain ⟨hnv, hnet, hweb, hst⟩ := hall l (List.mem_cons_self l ls)
    have hrest : crawlDepthGo web join base_url ls (l :: visited) =
        (ls.map (fun x => parse_page join x (F x).doc), ls.reverse ++ (l :: visited), ls) := by
      apply ih (l :: visited) (List.Nodup.of_cons hnd)
      intro x hx
      obtain ⟨hx1, hx2, hx3, hx4⟩ := hall x (List.mem_cons_of_mem l hx)
      refine ⟨?_, hx2, hx3, hx4⟩
      intro hmem
      rcases List.mem_cons.mp hmem with rfl | hv
      · exact (List.nodup_cons.mp hnd).1 hx
      · exact hx1 hv
    simp only [crawlDepthGo]
    rw [if_pos ⟨hnv, hnet⟩, hweb]
    simp only [hrest, hst, if_pos]
    simp [List.reverse_cons, List.append_assoc]

/-- C5, amended: a depth-2 crawl from a fresh engine whose seed page yields
8 distinct same-host crawlable links (none equal to the seed) fetches the
seed plus exactly the first 5 links (the per-level fan-out cap), each
exactly once, and follows only links on the seed's host.  The seed URL
itself, however, is never added to the visited set (see the
counterexample), so only the depth-2 links are protected against
re-fetching. -/
theorem scrapy_depth_cap (web : String → Option Fetched) (join : String → String → String)
    (F : String → Fetched) (seed : String) (fs : Fetched)
    (hseed : web seed = some fs) (hst : fs.status = 200)
    (hlen : (extract_crawlable_links join seed fs.doc).length = 8)
    (hnd : (extract_crawlable_links join seed fs.doc).Nodup)
    (hns : seed ∉ extract_crawlable_links join seed fs.doc)
    (hall : ∀ l ∈ extract_crawlable_links join seed fs.doc,
      netloc l = netloc seed ∧ web l = some (F l) ∧ (F l).status = 200) :
    pagesLen (scrapy_crawl web join ⟨[]⟩ seed 2).result = 6 ∧
    (scrapy_crawl web join ⟨[]⟩ seed 2).fetch_log =
      seed :: (extract_crawlable_links join seed fs.doc).take 5 ∧
    (scrapy_crawl web join ⟨[]⟩ seed 2).fetch_log.Nodup ∧
    ∀ l ∈ (scrapy_crawl web join ⟨[]⟩ seed 2).fetch_log, netloc l = netloc seed := by
  have h400 : ¬(400 ≤ fs.status) := by omega
  have htsub : (extract_crawlable_links join seed fs.doc).take 5 ⊆
      extract_crawlable_links join seed fs.doc := List.take_subset 5 _
  have hgo : crawlDepthGo web join seed ((extract_crawlable_links join seed fs.doc).take 5) [] =
      (((extract_crawlable_links join seed fs.doc).take 5).map
          (fun l => parse_page join l (F l).doc),
        ((extract_crawlable_links join seed fs.doc).take 5).reverse ++ [],
        (extract_crawlable_links join seed fs.doc).take 5) := by
    apply crawlDepthGo_ok web join seed F _ []
      (hnd.sublist (List.take_sublist 5 _))
    intro l hl
    exact ⟨List.not_mem_nil l, (hall l (htsub hl)).1, (hall l (htsub hl)).2.1,
      (hall l (htsub hl)).2.2⟩
  have htake : ((extract_crawlable_links join seed fs.doc).take 5).length = 5 := by
    rw [List.length_take, hlen]
    decide
  have hrun : scrapy_crawl web join ⟨[]⟩ seed 2 =
      { result := .ok
          { engine := "scrapy"
            url := seed
            depth := 2
            status_code := fs.status
            pages_crawled := parse_page join seed fs.doc ::
              ((extract_crawlable_links join seed fs.doc).take 5).map
                (fun l => parse_page join l (F l).doc)
            total_links_found := ((parse_page join seed fs.doc ::
              ((extract_crawlable_links join seed fs.doc).take 5).map
                (fun l => parse_page join l (F l).doc)).map
                  (fun p => p.links.length)).sum
            total_forms_found := ((parse_page join seed fs.doc ::
              ((extract_crawlable_links join seed fs.doc).take 5).map
                (fun l => parse_page join l (F l).doc)).map
                  (fun p => p.forms.length)).sum
            total_inputs_found := ((parse_page join seed fs.doc ::
              ((extract_crawlable_links join seed fs.doc).take 5).map
                (fun l => parse_page join l (F l).doc)).map
                  (fun p => p.inputs.length)).sum
            structured_data := fs.doc.structured }
        state := { visited_urls :=
          ((extract_crawlable_links join seed fs.doc).take 5).reverse ++ [] }
        fetch_log := seed :: (extract_crawlable_links join seed fs.doc).take 5 } := by
    unfold scrapy_crawl
    rw [hseed]
    simp only [if_neg h400]
    unfold crawl_depth
    rw [if_pos (by norm_num : (1 : Nat) < 2), hgo]
  refine ⟨?_, ?_, ?_, ?_⟩
  · rw [hrun]
    simp only [pagesLen, List.length_cons, htake, List.length_map]
  · rw [hrun]
  · rw [hrun]
    refine List.nodup_cons.mpr ⟨fun hmem => hns (htsub hmem), hnd.sublist (List.take_sublist 5 _)⟩
  · rw [hrun]
    intro l hl
    rcases List.mem_cons.mp hl with rfl | hm
    · rfl
    · exact (hall l (htsub hm)).1

/-- C5, counterexample: the seed URL is never added to `visited_urls`, so a
seed page that links back to itself gets the seed fetched a second time at
depth 2 — the visited set does **not** prevent a duplicate fetch of the
seed URL. -/
theorem scrapy_seed_refetch_counterexample :
    (scrapy_crawl webSelfLink jId ⟨[]⟩ "http://h/s" 2).fetch_log.count "http://h/s" = 2 ∧
    ¬(scrapy_crawl webSelfLink jId ⟨[]⟩ "http://h/s" 2).fetch_log.Nodup := by
  constructor
  · decide
  · decide

/-- C5, witness: the depth-cap theorem applied to a concrete eight-link
same-host seed page against a fresh engine. -/
theorem scrapy_depth_cap_witness :
    webFanOut "http://h/0" = some { status := 200, doc := docFanOut } ∧
    (extract_crawlable_links jId "http://h/0" docFanOut).length = 8 ∧
    (extract_crawlable_links jId "http://h/0" docFanOut).Nodup ∧
    "http://h/0" ∉ extract_crawlable_links jId "http://h/0" docFanOut ∧
    (∀ l ∈ extract_crawlable_links jId "http://h/0" docFanOut,
      netloc l = netloc "http://h/0" ∧ webFanOut l = some (fetchedFanOut l) ∧
        (fetchedFanOut l).status = 200) ∧
    pagesLen (scrapy_crawl webFanOut jId ⟨[]⟩ "http://h/0" 2).result = 6 ∧
    (scrapy_crawl webFanOut jId ⟨[]⟩ "http://h/0" 2).fetch_log =
      "http://h/0" :: (extract_crawlable_links jId "http://h/0" docFanOut).take 5 ∧
    (scrapy_crawl webFanOut jId ⟨[]⟩ "http://h/0" 2).fetch_log.Nodup :=
  ⟨by decide, by decide, by decide, by decide, by decide,
    (scrapy_depth_cap webFanOut jId fetchedFanOut "http://h/0" ⟨200, docFanOut⟩
      (by decide) rfl (by decide) (by decide) (by decide) (by decide)).1,
    (scrapy_depth_cap webFanOut jId fetchedFanOut "http://h/0" ⟨200, docFanOut⟩
      (by decide) rfl (by decide) (by decide) (by decide) (by decide)).2.1,
    (scrapy_depth_cap webFanOut jId fetchedFanOut "http://h/0" ⟨200, docFanOut⟩
      (by decide) rfl (by decide) (by decide) (by decide) (by decide)).2.2.1⟩

/-- C6: `visited_urls` survives one `crawl` invocation into the next on the
same engine instance (it is set up in `__init__` and never cleared), so a
second identical crawl returns fewer pages than a crawl on a fresh engine —
contradicting the request-scoped visited-set the spec promises.  (The HTTP
layer shares one module-level `ScrapyEngine` across all requests.) -/
theorem scrapy_visited_persists :
    pagesLen (scrapy_crawl webTwoRun jId ⟨[]⟩ "http://h/s" 2).result = 2 ∧
    pagesLen (scrapy_crawl webTwoRun jId
        (scrapy_crawl webTwoRun jId ⟨[]⟩ "http://h/s" 2).state "http://h/s" 2).result = 1 ∧
    (scrapy_crawl webTwoRun jId (scrapy_crawl webTwoRun jId ⟨[]⟩ "http://h/s" 2).state
        "http://h/s" 2).result ≠
      (scrapy_crawl webTwoRun jId ⟨[]⟩ "http://h/s" 2).result := by
  refine ⟨?_, ?_, ?_⟩
  · decide
  · decide
  · intro heq
    have h1 : pagesLen (scrapy_crawl webTwoRun jId
        (scrapy_crawl webTwoRun jId ⟨[]⟩ "http://h/s" 2).state "http://h/s" 2).result = 1 := by
      decide
    rw [heq] at h1
    have h2 : pagesLen (scrapy_crawl webTwoRun jId ⟨[]⟩ "http://h/s" 2).result = 2 := by
      decide
    rw [h1] at h2
    exact absurd h2 (by decide)

end Garud
